import Mathlib

/-!
A shallow embedding of `marconiclient/client.py` (the `Connection` class of
the python-marconiclient repository) together with proofs about its
behaviour.

Python values that flow through the client (JSON-decoded bodies, request
dictionaries, strings) are modelled by the inductive type `PyVal`; Python
exceptions by `PyError`; fallible Python code by `Except PyError`.  The
external collaborators that live outside `src/` (the `json` module's
`loads`/`dumps`, the authentication handshake `auth.authenticate`) are taken
as explicit function parameters, and the pieces of this repository that are
not under `src/` (the `misc` module's `proc_template` and the two guard
decorators, the `Queue` resource class) are modelled from the spec, each
marked as such in its doc comment.

Every HTTP exchange is modelled by passing the (mocked) `HttpResponse` the
service would produce as an argument; each operation additionally reports
the request it sent (if any), so that "no network I/O happened" is the
statement that the reported request is `none`.
-/

namespace Marconi

/-- Python values as the client sees them: strings, integers, dicts
(association lists), lists, and `None`.  JSON-decoded response bodies and
the structured request bodies built by the client live in this type. -/
inductive PyVal where
  | str (s : String)
  | int (n : Int)
  | obj (fields : List (String × PyVal))
  | arr (elems : List PyVal)
  | pyNone

/-- The Python exceptions that can escape the client's methods.
`clientException` is `marconiclient.exceptions.ClientException` as built in
`_perform_http` (keyword form, carrying href, method, status and the raw
response content); `clientExceptionMsg` is the single-message form used
(intendedly) in `_http_connect`.  `noSuchQueueError` is the domain error the
spec names `NoSuchQueueError`; `client.py` references that name without ever
importing or defining it, which is why `nameError` also appears here.
`attributeError` models access to an attribute the object does not have,
`typeError` models e.g. `None + str`, `keyError` a failed dict lookup, and
`missingClientId` / `notAuthenticated` are the two guard errors raised by the
`misc` decorators. -/
inductive PyError where
  | clientException (href method : String) (http_status : Nat) (content : String)
  | clientExceptionMsg (msg : String)
  | noSuchQueueError (queue_name : String)
  | nameError (n : String)
  | attributeError (attr : String)
  | typeError (msg : String)
  | keyError (k : String)
  | missingClientId
  | notAuthenticated
deriving DecidableEq

/-- Whether an exception value is of class `ClientException` (the spec's
"`ClientException`-class error"). -/
def isClientExceptionClass : PyError → Bool
  | .clientException .. => true
  | .clientExceptionMsg _ => true
  | _ => false

/-- Python truthiness of an optional string: `None` and the empty string are
falsy, every other string is truthy (this is the `if not self._token:` test
of `connect` and the test the guard decorators perform). -/
def truthy : Option String → Bool
  | none => false
  | some s => !(s == "")

/-- Scan for the literal `"://"` separator: returns the characters before it
and the characters after it. -/
def findSchemeSep (acc : List Char) : List Char → Option (List Char × List Char)
  | ':' :: '/' :: '/' :: rest => some (acc.reverse, rest)
  | c :: rest => findSchemeSep (c :: acc) rest
  | [] => none

/-- Shallow model of `urlparse.urlparse(url).scheme`, restricted to the URLs
the client is used with: the part before `"://"` (empty when there is no
`"://"`).  The real `urlparse` lowercases the scheme; the model is used only
on already-lowercase schemes. -/
def urlparseScheme (url : String) : String :=
  match findSchemeSep [] url.data with
  | none => ""
  | some (before, _) => String.mk before

/-- Shallow model of `urlparse.urlparse(url).netloc`: the part after
`"://"` and before the next `'/'` (empty when there is no `"://"`). -/
def urlparseNetloc (url : String) : String :=
  match findSchemeSep [] url.data with
  | none => ""
  | some (_, rest) => String.mk (rest.takeWhile (fun c => c ≠ '/'))

/-- The connection handle produced by the transport selector:
`HTTPConnection(netloc)` or `HTTPSConnection(netloc)`.  `certConfig` records
the certificate-related constructor arguments of `HTTPSConnection`; the
source passes none (the Python constructor defaults them to `None`), so the
code only ever builds `secure netloc none`. -/
inductive HttpConn where
  | plain (netloc : String)
  | secure (netloc : String) (certConfig : Option String)
deriving DecidableEq

/-- The state of a `marconiclient.client.Connection` object.  Fields mirror
the Python attributes (`_auth_endpoint`, `_user`, `_key`, `_token`,
`_endpoint`, `_cacert`, `_client_id`); the href attributes are `Option`s
because they do not exist on the object until `_load_homedoc_hrefs` has run
(`claims_href`/`claim_href` stand for the source's `_claims_href` /
`_claim_href`). -/
structure Connection where
  auth_endpoint : String
  user : String
  key : String
  token : Option String := none
  endpoint : Option String := none
  cacert : Option String := none
  client_id : Option String := none
  queues_href : Option String := none
  queue_href : Option String := none
  messages_href : Option String := none
  message_href : Option String := none
  claims_href : Option String := none
  claim_href : Option String := none
  actions_href : Option String := none
  action_href : Option String := none
deriving DecidableEq

/-- `Connection._load_homedoc_hrefs`: derives the hard-coded href template
set from `self._endpoint`.  When the endpoint is `None`, the very first
line (`self._endpoint + "/queues"`) raises a `TypeError` before any
attribute is assigned. -/
def load_homedoc_hrefs (c : Connection) : Except PyError Connection :=
  match c.endpoint with
  | none => .error (.typeError "unsupported operand: NoneType + str")
  | some e =>
    let queues := e ++ "/queues"
    let queue := queues ++ "/{queue_name}"
    let messages := queue ++ "/messages"
    .ok { c with
          queues_href := some queues
          queue_href := some queue
          messages_href := some messages
          message_href := some (messages ++ "/{message_id}")
          claims_href := some (queues ++ "/claims")
          claim_href := some (queues ++ "/claims/{claim_id}")
          actions_href := some (e ++ "/actions")
          action_href := some ((e ++ "/actions") ++ "/{action_id}") }

/-- `Connection.connect`: when no (truthy) token is held, call the external
`authenticate(auth_endpoint, user, key, endpoint=endpoint, cacert=cacert)`
collaborator (passed in as `authf`) and store the endpoint/token pair it
returns; then (in every case) derive the href templates.  The first
component counts how many times `authenticate` was invoked. -/
def connect (authf : String → String → String → Option String → Option String → String × String)
    (c : Connection) : Nat × Except PyError Connection :=
  if truthy c.token then
    (0, load_homedoc_hrefs c)
  else
    let (ep, tok) := authf c.auth_endpoint c.user c.key c.endpoint c.cacert
    (1, load_homedoc_hrefs { c with endpoint := some ep, token := some tok })

/-- `Connection._http_connect` (the second, effective definition in the
class body): parse `self._endpoint`, return `HTTPConnection(netloc)` for
scheme `http` and `HTTPSConnection(netloc)` for scheme `https` (no
certificate arguments are passed).  On any other scheme the source tries to
raise `ClientException('Cannot handle protocol %s for href %s' %
(parsed.scheme, repr(href)))`, but the name `href` is not bound anywhere in
the function (its only parameter is `self`), so formatting the message
raises `NameError` before the `ClientException` is ever constructed.
`urlparse(None)` itself fails with an `AttributeError`. -/
def http_connect (c : Connection) : Except PyError HttpConn :=
  match c.endpoint with
  | none => .error (.attributeError "NoneType has no urlparse-able value")
  | some ep =>
    if urlparseScheme ep = "http" then .ok (.plain (urlparseNetloc ep))
    else if urlparseScheme ep = "https" then .ok (.secure (urlparseNetloc ep) none)
    else .error (.nameError "href")

/-- Look up a substitution by placeholder name (first match). -/
def lookupSub (subs : List (String × String)) (k : String) : Option String :=
  (subs.find? (fun p => p.1 == k)).map (·.2)

/-- Worker for `procTemplate`: walks the template characters; outside a
placeholder (`ph = none`) characters are copied and `'\x7b'` opens a
placeholder; inside a placeholder (`ph = some acc`) characters accumulate
until `'\x7d'`, at which point the collected name is looked up and its value
spliced in verbatim (substituted values are not re-scanned).  An unknown
placeholder name, or an unterminated placeholder, fails. -/
def procAux (subs : List (String × String)) : Option (List Char) → List Char → Option (List Char)
  | ph, [] => match ph with | none => some [] | some _ => none
  | none, c :: rest =>
      if c = '{' then procAux subs (some []) rest
      else (procAux subs none rest).map (c :: ·)
  | some acc, c :: rest =>
      if c = '}' then
        match lookupSub subs (String.mk acc) with
        | some v => (procAux subs none rest).map (v.data ++ ·)
        | none => none
      else procAux subs (some (acc ++ [c])) rest

/-- Modelled from the spec: `proc_template` from the `misc` module, which is
not present under `src/`.  Per the spec it is a "pure function mapping
`(template, substitutions)` to a concrete path string, where the template
contains `\x7bname\x7d`-style placeholders", and it "fails if a referenced
placeholder has no corresponding substitution". -/
def procTemplate (t : String) (subs : List (String × String)) : Option String :=
  (procAux subs none t.data).map String.mk

/-- The HTTP response the (mocked) service produces for a request: status
code, response headers as the list of pairs `response.getheaders()` returns,
and the raw body text `response.read()` returns. -/
structure HttpResponse where
  status : Nat
  headers : List (String × String)
  body : String
deriving DecidableEq

/-- The request `_perform_http` actually puts on the wire:
`conn.request(method, href, request_body, headers=headers)` after
serialization of the body. -/
structure SentRequest where
  method : String
  href : String
  body : String
  headers : List (String × String)
deriving DecidableEq

/-- The `request_body` argument of `_perform_http`: either already a `str`
(the default is `''`) or a structured value that will be serialized with
`json.dumps`. -/
inductive ReqBody where
  | str (s : String)
  | val (v : PyVal)

/-- One step of building a Python dict from a key/value pair: an existing
key is updated in place, a new key is appended. -/
def dictInsert (acc : List (String × String)) (p : String × String) :
    List (String × String) :=
  if acc.any (fun q => q.1 == p.1) then
    acc.map (fun q => if q.1 == p.1 then (q.1, p.2) else q)
  else acc ++ [p]

/-- `dict(headers)`: build a mapping from a list of header pairs, duplicate
keys collapsed by standard dict semantics (the last value wins). -/
def dictOf (l : List (String × String)) : List (String × String) :=
  l.foldl dictInsert []

/-- Everything observable about one `_perform_http` call: the request it
sent (if it got as far as sending one), its outcome (the `(headers, body)`
pair on success, the exception otherwise), whether a connection was obtained
from `_http_connect`, and whether `conn.close()` was reached. -/
structure PerformResult where
  sent : Option SentRequest
  outcome : Except PyError (List (String × String) × PyVal)
  connOpened : Bool
  connClosed : Bool

/-- `Connection._perform_http(method, headers, href, request_body='')`.
`dumps` and `loads` are the external `json.dumps` / `json.loads`
collaborators; `resp` is the response the service returns to this request.
Faithful to the source: obtain a connection via `_http_connect`; serialize
the body with `json.dumps` unless it is already a `str`; send the request;
if `response.status // 100 != 2` raise `ClientException` carrying the href,
method, status and the raw (`response.read()`, not JSON-decoded) body —
note that on this path `conn.close()` is never executed; otherwise take
`dict(response.getheaders())`, read the body, JSON-decode it when
non-empty (an empty body is returned as the empty `str`), close the
connection, and return the pair. -/
def perform_http (dumps : PyVal → String) (loads : String → PyVal)
    (c : Connection) (method : String) (headers : List (String × String))
    (href : String) (request_body : ReqBody) (resp : HttpResponse) :
    PerformResult :=
  match http_connect c with
  | .error e => ⟨none, .error e, false, false⟩
  | .ok _ =>
    let bodyStr := match request_body with
      | .str s => s
      | .val v => dumps v
    let sent : SentRequest := ⟨method, href, bodyStr, headers⟩
    if resp.status / 100 ≠ 2 then
      ⟨some sent, .error (.clientException href method resp.status resp.body),
       true, false⟩
    else
      let rb := if resp.body.length > 0 then loads resp.body
                else PyVal.str resp.body
      ⟨some sent, .ok (dictOf resp.headers, rb), true, true⟩

/-- Modelled from the spec: the `require_clientid` decorator of the `misc`
module (not under `src/`): "`clientId` must be set (non-null/non-empty) —
else fails with a configuration/precondition error identifying the missing
client identifier". -/
def clientidGuard (c : Connection) : Bool :=
  truthy c.client_id

/-- Modelled from the spec: the `require_authenticated` decorator of the
`misc` module (not under `src/`): "The session must be Authenticated (token
and endpoint both set) — else fails with a not-authenticated error".  In the
source the decorators are stacked `@require_clientid` above
`@require_authenticated`, so the client-id check runs first. -/
def authGuard (c : Connection) : Bool :=
  truthy c.token && truthy c.endpoint

/-- Modelled from the spec: the external `Queue` resource-class constructor
`Queue(session, href, name, metadata)` (the `queue` module is not under
`src/`).  The handle carries the `href`, `name` and `metadata` it was
constructed with; the non-owning back-reference to the session is not
represented.  Fields have type `PyVal` because `get_queues` passes whatever
dynamic values the response elements hold. -/
structure Queue where
  href : PyVal
  name : PyVal
  metadata : PyVal

/-- Python subscripting `v[k]` for a string key: a dict lookup (raising
`KeyError` when the key is missing) and a `TypeError` on any
non-subscriptable value. -/
def getItem : PyVal → String → Except PyError PyVal
  | .obj fields, k =>
    match (fields.find? (fun p => p.1 == k)).map (·.2) with
    | some v => .ok v
    | none => .error (.keyError k)
  | _, k => .error (.typeError ("value has no item " ++ k))

/-- The result of one queue operation: its Python return value (or the
exception it raises) together with the request it sent over the network, if
it sent one. -/
def OpResult (α : Type) : Type :=
  Except PyError α × Option SentRequest

/-- `Connection.create_queue(queue_name, ttl, headers)`: after the two
guards, expand the single-queue template with the name, issue a `PUT` with
body `\x7bu'messages': \x7bu'ttl': ttl\x7d\x7d`, and on success return
`Queue(self, href=href, name=queue_name, metadata=body)`.  Errors from
`_perform_http` propagate (there is no `try` here). -/
def create_queue (dumps : PyVal → String) (loads : String → PyVal)
    (resp : HttpResponse) (c : Connection) (queue_name : String) (ttl : Int)
    (headers : List (String × String)) : OpResult Queue :=
  if !clientidGuard c then (.error .missingClientId, none)
  else if !authGuard c then (.error .notAuthenticated, none)
  else match c.queue_href with
  | none => (.error (.attributeError "queue_href"), none)
  | some qh =>
    match procTemplate qh [("queue_name", queue_name)] with
    | none => (.error (.keyError "queue_name"), none)
    | some href =>
      let body := PyVal.obj [("messages", PyVal.obj [("ttl", PyVal.int ttl)])]
      let pr := perform_http dumps loads c "PUT" headers href (.val body) resp
      match pr.outcome with
      | .error e => (.error e, pr.sent)
      | .ok _ => (.ok ⟨.str href, .str queue_name, body⟩, pr.sent)

/-- `Connection.get_queue(queue_name, headers)`: after the guards, expand
the template, issue a `GET`, and return a Queue handle built from the
response body.  Its `except ClientException` clause evaluates
`NoSuchQueueError(queue_name) if ex.http_status == 404 else ex`: on a 404
the name `NoSuchQueueError` — never imported or defined in `client.py` —
is looked up, so a `NameError` is raised instead of the intended domain
error; on any other status the original exception is re-raised unchanged.
Non-`ClientException` errors are not caught. -/
def get_queue (dumps : PyVal → String) (loads : String → PyVal)
    (resp : HttpResponse) (c : Connection) (queue_name : String)
    (headers : List (String × String)) : OpResult Queue :=
  if !clientidGuard c then (.error .missingClientId, none)
  else if !authGuard c then (.error .notAuthenticated, none)
  else match c.queue_href with
  | none => (.error (.attributeError "queue_href"), none)
  | some qh =>
    match procTemplate qh [("queue_name", queue_name)] with
    | none => (.error (.keyError "queue_name"), none)
    | some href =>
      let pr := perform_http dumps loads c "GET" headers href (.str "") resp
      match pr.outcome with
      | .ok (_, body) => (.ok ⟨.str href, .str queue_name, body⟩, pr.sent)
      | .error (.clientException h m st content) =>
        if st == 404 then (.error (.nameError "NoSuchQueueError"), pr.sent)
        else (.error (.clientException h m st content), pr.sent)
      | .error e => (.error e, pr.sent)

/-- Build the Queue handles `get_queues` yields, one per element of
`res["queues"]`, in order, looking up `name`, `href` and `metadata` on each
element. -/
def buildQueues : List PyVal → Except PyError (List Queue)
  | [] => .ok []
  | q :: rest => do
    let n ← getItem q "name"
    let h ← getItem q "href"
    let m ← getItem q "metadata"
    let tl ← buildQueues rest
    .ok (⟨h, n, m⟩ :: tl)

/-- `Connection.get_queues(headers)`: after the guards, `GET` the
queues-collection href, take `res["queues"]`, and yield
`Queue(conn=self._conn, name=queue['name'], href=queue['href'],
metadata=queue['metadata'])` for each element in order.  The generator is
modelled as the finite list of handles it yields.  There is no `try` here:
every `_perform_http` error propagates. -/
def get_queues (dumps : PyVal → String) (loads : String → PyVal)
    (resp : HttpResponse) (c : Connection)
    (headers : List (String × String)) : OpResult (List Queue) :=
  if !clientidGuard c then (.error .missingClientId, none)
  else if !authGuard c then (.error .notAuthenticated, none)
  else match c.queues_href with
  | none => (.error (.attributeError "queues_href"), none)
  | some href =>
    let pr := perform_http dumps loads c "GET" headers href (.str "") resp
    match pr.outcome with
    | .error e => (.error e, pr.sent)
    | .ok (_, res) =>
      match getItem res "queues" with
      | .error e => (.error e, pr.sent)
      | .ok (.arr l) => (buildQueues l, pr.sent)
      | .ok _ => (.error (.typeError "value is not iterable"), pr.sent)

/-- `Connection.delete_queue(queue_name, headers)`: after the guards,
expand the template and issue a `DELETE`; success returns `None`.  Its
`except ClientException` clause is the same (broken) 404 translation as in
`get_queue`: a 404 raises `NameError` (the name `NoSuchQueueError` is
unbound in the module), any other status re-raises the original exception
unchanged. -/
def delete_queue (dumps : PyVal → String) (loads : String → PyVal)
    (resp : HttpResponse) (c : Connection) (queue_name : String)
    (headers : List (String × String)) : OpResult PyVal :=
  if !clientidGuard c then (.error .missingClientId, none)
  else if !authGuard c then (.error .notAuthenticated, none)
  else match c.queue_href with
  | none => (.error (.attributeError "queue_href"), none)
  | some qh =>
    match procTemplate qh [("queue_name", queue_name)] with
    | none => (.error (.keyError "queue_name"), none)
    | some href =>
      let pr := perform_http dumps loads c "DELETE" headers href (.str "") resp
      match pr.outcome with
      | .ok _ => (.ok .pyNone, pr.sent)
      | .error (.clientException h m st content) =>
        if st == 404 then (.error (.nameError "NoSuchQueueError"), pr.sent)
        else (.error (.clientException h m st content), pr.sent)
      | .error e => (.error e, pr.sent)

/-- `Connection.get_queue_metadata(queue_name, headers)`: after the guards,
the first statement reads `self._queue_href` — an attribute no code ever
assigns (`_load_homedoc_hrefs` assigns `queue_href`, without the leading
underscore), so the method always raises `AttributeError` before reaching
its (also broken: it references an unbound `conn` and passes
`_perform_http`'s arguments positionally in the wrong order) request line.
No request is ever sent. -/
def get_queue_metadata (dumps : PyVal → String) (loads : String → PyVal)
    (resp : HttpResponse) (c : Connection) (queue_name : String)
    (headers : List (String × String)) :
    OpResult (List (String × String) × PyVal) :=
  if !clientidGuard c then (.error .missingClientId, none)
  else if !authGuard c then (.error .notAuthenticated, none)
  else (.error (.attributeError "_queue_href"), none)

/-! ### Supporting lemmas -/

/-- Unfolding `procAux` one character at a time outside a placeholder. -/
theorem procAux_none_cons (subs : List (String × String)) (c : Char)
    (rest : List Char) :
    procAux subs none (c :: rest) =
      if c = '{' then procAux subs (some []) rest
      else (procAux subs none rest).map (c :: ·) := rfl

/-- Characters that are not an opening brace are copied through a template
unchanged. -/
theorem procAux_copy (subs : List (String × String)) (xs ys : List Char)
    (h : ∀ c ∈ xs, c ≠ '{') :
    procAux subs none (xs ++ ys) = (procAux subs none ys).map (xs ++ ·) := by
  induction xs with
  | nil => simp
  | cons c xs ih =>
    have hc : c ≠ '{' := h c (by simp)
    have hxs : ∀ a ∈ xs, a ≠ '{' := fun a ha => h a (by simp [ha])
    rw [List.cons_append, procAux_none_cons, if_neg hc, ih hxs, Option.map_map]
    rfl

/-- Expanding a template that is a brace-free prefix followed by the single
placeholder `\x7bqueue_name\x7d` splices the substituted value onto the
prefix. -/
theorem procTemplate_expand (pre n : String) (h : ∀ c ∈ pre.data, c ≠ '{') :
    procTemplate (pre ++ "{queue_name}") [("queue_name", n)] = some (pre ++ n) := by
  have hq : procAux [("queue_name", n)] none ("{queue_name}".data) =
      some (n.data ++ []) := rfl
  unfold procTemplate
  rw [String.data_append, procAux_copy _ _ _ h, hq]
  show some (String.mk (pre.data ++ (n.data ++ []))) = some (pre ++ n)
  rw [List.append_nil]
  exact congrArg some (by cases pre; cases n; rfl)

/-- `load_homedoc_hrefs` never touches the token or the endpoint. -/
theorem load_homedoc_hrefs_preserves (d d' : Connection)
    (hd : load_homedoc_hrefs d = .ok d') :
    d'.token = d.token ∧ d'.endpoint = d.endpoint := by
  cases he : d.endpoint with
  | none => simp [load_homedoc_hrefs, he] at hd
  | some e =>
    simp only [load_homedoc_hrefs, he, Except.ok.injEq] at hd
    subst hd
    exact ⟨rfl, rfl⟩

/-! ### Sample values used by witnesses and counterexamples -/

/-- A stub JSON serializer standing in for `json.dumps`. -/
def dumpsStub : PyVal → String := fun _ => ""

/-- A stub JSON decoder standing in for `json.loads`. -/
def loadsStub : String → PyVal := fun _ => PyVal.pyNone

/-- A stub authentication collaborator standing in for `auth.authenticate`. -/
def authStub : String → String → String → Option String → Option String →
    String × String := fun _ _ _ _ _ => ("http://svc", "newtok")

/-- An authenticated session against a plain-HTTP endpoint, with the href
templates a `connect` against endpoint `http://host:80/v1` would derive. -/
def connAuthed : Connection :=
  { auth_endpoint := "http://auth", user := "u", key := "k"
    token := some "tok", endpoint := some "http://host:80/v1"
    client_id := some "cid"
    queues_href := some "http://host:80/v1/queues"
    queue_href := some "http://host:80/v1/queues/{queue_name}" }

/-- A session whose client id is not set. -/
def connNoId : Connection :=
  { auth_endpoint := "http://auth", user := "u", key := "k"
    token := some "tok", endpoint := some "http://host:80/v1" }

/-- A session with a client id but no token. -/
def connNoToken : Connection :=
  { auth_endpoint := "http://auth", user := "u", key := "k"
    client_id := some "cid", endpoint := some "http://host:80/v1" }

/-- An authenticated session whose endpoint uses the `https` scheme and that
carries a trust-anchor `cacert`. -/
def connHttpsCa : Connection :=
  { auth_endpoint := "http://auth", user := "u", key := "k"
    token := some "tok", endpoint := some "https://host/v1"
    cacert := some "cafile", client_id := some "cid" }

/-- A session whose endpoint uses an unsupported scheme. -/
def connFtp : Connection :=
  { auth_endpoint := "http://auth", user := "u", key := "k"
    token := some "tok", endpoint := some "ftp://host/v1"
    cacert := some "cafile", client_id := some "cid" }

/-- A session holding a pre-supplied token but no endpoint. -/
def connTokenNoEp : Connection :=
  { auth_endpoint := "http://auth", user := "u", key := "k"
    token := some "tok", client_id := some "cid" }

/-! ### Claims -/

/-- C1: for every HTTP response, `_perform_http` succeeds exactly on
statuses in [200,299]: on a 2xx status it returns the header mapping and the
body (JSON-decoded when non-empty, the empty string for an empty body)
without raising; on any other status it raises a `ClientException` carrying
exactly the request's href and method, the response's status, and the raw
(not JSON-decoded) response body. -/
theorem C1_perform_http_classification
    (dumps : PyVal → String) (loads : String → PyVal) (c : Connection)
    (method href : String) (headers : List (String × String)) (rb : ReqBody)
    (resp : HttpResponse) (hconn : ∃ hc, http_connect c = .ok hc) :
    (200 ≤ resp.status ∧ resp.status ≤ 299 →
      (perform_http dumps loads c method headers href rb resp).outcome =
        .ok (dictOf resp.headers,
          if resp.body.length > 0 then loads resp.body
          else PyVal.str resp.body))
    ∧ (¬ (200 ≤ resp.status ∧ resp.status ≤ 299) →
      (perform_http dumps loads c method headers href rb resp).outcome =
        .error (.clientException href method resp.status resp.body)) := by
  obtain ⟨hc, hcc⟩ := hconn
  refine ⟨fun h => ?_, fun h => ?_⟩
  · have hs : ¬ (resp.status / 100 ≠ 2) := by omega
    simp [perform_http, hcc, hs]
  · have hs : resp.status / 100 ≠ 2 := by omega
    simp [perform_http, hcc, hs]

/-- Witness for C1: a 201 response with empty headers and body against
`connAuthed` yields the empty header mapping and the empty string. -/
theorem C1_perform_http_classification_witness :
    ((200 ≤ 201 ∧ 201 ≤ 299) ∧ (∃ hc, http_connect connAuthed = .ok hc)) ∧
    (perform_http dumpsStub loadsStub connAuthed "GET" [] "/v1/queues"
        (.str "") ⟨201, [], ""⟩).outcome = .ok ([], PyVal.str "") := by
  refine ⟨⟨by decide, ⟨.plain "host:80", rfl⟩⟩, ?_⟩
  exact (C1_perform_http_classification dumpsStub loadsStub connAuthed "GET"
    "/v1/queues" [] (.str "") ⟨201, [], ""⟩ ⟨.plain "host:80", rfl⟩).1
    (by decide)

/-- C3 counterexample: on a 500 response `_perform_http` obtains a
connection and raises without ever reaching `conn.close()` — the claim that
the connection is closed on every error path is false. -/
theorem C3_counterexample :
    (perform_http dumpsStub loadsStub connAuthed "GET" [] "/v1/queues"
        (.str "") ⟨500, [], "boom"⟩).connOpened = true ∧
    (perform_http dumpsStub loadsStub connAuthed "GET" [] "/v1/queues"
        (.str "") ⟨500, [], "boom"⟩).connClosed = false := ⟨rfl, rfl⟩

/-- C3 amended: the connection obtained from the transport selector is
closed before `_perform_http` returns on the 2xx success path (after the
response is read), but on every non-2xx path the `ClientException` is
raised before `conn.close()` is executed, so the connection handle is
leaked. -/
theorem C3_connection_close
    (dumps : PyVal → String) (loads : String → PyVal) (c : Connection)
    (method href : String) (headers : List (String × String)) (rb : ReqBody)
    (resp : HttpResponse) (hconn : ∃ hc, http_connect c = .ok hc) :
    (resp.status / 100 = 2 →
      (perform_http dumps loads c method headers href rb resp).connOpened = true ∧
      (perform_http dumps loads c method headers href rb resp).connClosed = true)
    ∧ (resp.status / 100 ≠ 2 →
      (perform_http dumps loads c method headers href rb resp).connOpened = true ∧
      (perform_http dumps loads c method headers href rb resp).connClosed = false) := by
  obtain ⟨hc, hcc⟩ := hconn
  refine ⟨fun h => ?_, fun h => ?_⟩ <;> simp [perform_http, hcc, h]

/-- Witness for C3's amended theorem: a 204 success closes the connection. -/
theorem C3_connection_close_witness :
    ((204 : Nat) / 100 = 2 ∧ (∃ hc, http_connect connAuthed = .ok hc)) ∧
    (perform_http dumpsStub loadsStub connAuthed "DELETE" [] "/v1/queues/q"
        (.str "") ⟨204, [], ""⟩).connClosed = true := by
  refine ⟨⟨by decide, ⟨.plain "host:80", rfl⟩⟩, ?_⟩
  exact ((C3_connection_close dumpsStub loadsStub connAuthed "DELETE"
    "/v1/queues/q" [] (.str "") ⟨204, [], ""⟩ ⟨.plain "host:80", rfl⟩).1
    (by decide)).2

/-- C5: on a session already holding a token, `connect()` — called once or
twice — performs zero calls to the external `authenticate` collaborator and
leaves the session's `endpoint` and `token` unchanged. -/
theorem C5_connect_idempotent
    (authf : String → String → String → Option String → Option String →
      String × String)
    (c : Connection) (h : truthy c.token = true) :
    (connect authf c).1 = 0 ∧
    ∀ c', (connect authf c).2 = .ok c' →
      c'.token = c.token ∧ c'.endpoint = c.endpoint ∧
      (connect authf c').1 = 0 ∧
      ∀ c'', (connect authf c').2 = .ok c'' →
        c''.token = c.token ∧ c''.endpoint = c.endpoint := by
  refine ⟨by simp [connect, h], fun c' hc' => ?_⟩
  have hld : load_homedoc_hrefs c = .ok c' := by
    simpa [connect, h] using hc'
  obtain ⟨ht, hep⟩ := load_homedoc_hrefs_preserves c c' hld
  have htr : truthy c'.token = true := by rw [ht]; exact h
  refine ⟨ht, hep, by simp [connect, htr], fun c'' hc'' => ?_⟩
  have hld2 : load_homedoc_hrefs c' = .ok c'' := by
    simpa [connect, htr] using hc''
  obtain ⟨ht2, hep2⟩ := load_homedoc_hrefs_preserves c' c'' hld2
  exact ⟨ht2.trans ht, hep2.trans hep⟩

/-- Witness for C5: `connAuthed` holds the token `"tok"`; connecting calls
`authenticate` zero times and keeps token and endpoint. -/
theorem C5_connect_idempotent_witness :
    truthy connAuthed.token = true ∧
    (connect authStub connAuthed).1 = 0 ∧
    ∀ c', (connect authStub connAuthed).2 = .ok c' →
      c'.token = connAuthed.token ∧ c'.endpoint = connAuthed.endpoint := by
  refine ⟨rfl, (C5_connect_idempotent authStub connAuthed rfl).1,
    fun c' hc' => ?_⟩
  have := (C5_connect_idempotent authStub connAuthed rfl).2 c' hc'
  exact ⟨this.1, this.2.1⟩

/-- C10: when a token is pre-supplied but no endpoint is, `connect()` skips
the `authenticate` collaborator and then fails deriving the href templates
(concatenating the null endpoint with a path suffix raises `TypeError`);
with a token held, `connect()` succeeds exactly when the endpoint is
non-null. -/
theorem C10_connect_token_requires_endpoint
    (authf : String → String → String → Option String → Option String →
      String × String)
    (c : Connection) (h : truthy c.token = true) :
    (connect authf c).1 = 0 ∧
    (c.endpoint = none →
      (connect authf c).2 =
        .error (.typeError "unsupported operand: NoneType + str")) ∧
    (∀ e, c.endpoint = some e → ∃ c', (connect authf c).2 = .ok c') := by
  refine ⟨by simp [connect, h], fun he => ?_, fun e he => ?_⟩
  · simp [connect, h, load_homedoc_hrefs, he]
  · refine ⟨{ c with
        queues_href := some (e ++ "/queues")
        queue_href := some (e ++ "/queues" ++ "/{queue_name}")
        messages_href := some (e ++ "/queues" ++ "/{queue_name}" ++ "/messages")
        message_href := some (e ++ "/queues" ++ "/{queue_name}" ++ "/messages"
          ++ "/{message_id}")
        claims_href := some (e ++ "/queues" ++ "/claims")
        claim_href := some (e ++ "/queues" ++ "/claims/{claim_id}")
        actions_href := some (e ++ "/actions")
        action_href := some (e ++ "/actions" ++ "/{action_id}") }, ?_⟩
    simp [connect, h, load_homedoc_hrefs, he]

/-- Witness for C10: `connTokenNoEp` holds token `"tok"` and no endpoint;
`connect` performs zero authentication calls and raises the `TypeError`. -/
theorem C10_connect_token_requires_endpoint_witness :
    (truthy connTokenNoEp.token = true ∧ connTokenNoEp.endpoint = none) ∧
    (connect authStub connTokenNoEp).1 = 0 ∧
    (connect authStub connTokenNoEp).2 =
      .error (.typeError "unsupported operand: NoneType + str") := by
  refine ⟨⟨rfl, rfl⟩, ?_, ?_⟩
  · exact (C10_connect_token_requires_endpoint authStub connTokenNoEp rfl).1
  · exact (C10_connect_token_requires_endpoint authStub connTokenNoEp
      rfl).2.1 rfl

/-- C4: on every queue operation, an unset client id fails with the
missing-client-id precondition error regardless of authentication state; a
set client id with no token held fails with the not-authenticated error; in
both cases no request is sent (the reported request trace is `none`, and the
result does not depend on the mocked response). -/
theorem C4_guard_ordering (dumps : PyVal → String) (loads : String → PyVal)
    (resp : HttpResponse) (c : Connection) (qn : String) (ttl : Int)
    (headers : List (String × String)) :
    (clientidGuard c = false →
      create_queue dumps loads resp c qn ttl headers =
        (.error .missingClientId, none) ∧
      get_queue dumps loads resp c qn headers =
        (.error .missingClientId, none) ∧
      get_queues dumps loads resp c headers =
        (.error .missingClientId, none) ∧
      delete_queue dumps loads resp c qn headers =
        (.error .missingClientId, none) ∧
      get_queue_metadata dumps loads resp c qn headers =
        (.error .missingClientId, none))
    ∧ (clientidGuard c = true → truthy c.token = false →
      create_queue dumps loads resp c qn ttl headers =
        (.error .notAuthenticated, none) ∧
      get_queue dumps loads resp c qn headers =
        (.error .notAuthenticated, none) ∧
      get_queues dumps loads resp c headers =
        (.error .notAuthenticated, none) ∧
      delete_queue dumps loads resp c qn headers =
        (.error .notAuthenticated, none) ∧
      get_queue_metadata dumps loads resp c qn headers =
        (.error .notAuthenticated, none)) := by
  constructor
  · intro h
    refine ⟨?_, ?_, ?_, ?_, ?_⟩ <;>
      simp [create_queue, get_queue, get_queues, delete_queue,
        get_queue_metadata, h]
  · intro h1 h2
    have ha : authGuard c = false := by simp [authGuard, h2]
    refine ⟨?_, ?_, ?_, ?_, ?_⟩ <;>
      simp [create_queue, get_queue, get_queues, delete_queue,
        get_queue_metadata, h1, ha]

/-- Witness for C4: `connNoId` has no client id and fails with the
missing-client-id error even though it is authenticated; `connNoToken` has a
client id but no token and fails with the not-authenticated error. -/
theorem C4_guard_ordering_witness :
    (clientidGuard connNoId = false ∧
      create_queue dumpsStub loadsStub ⟨201, [], ""⟩ connNoId "q1" 60 [] =
        (.error .missingClientId, none)) ∧
    (clientidGuard connNoToken = true ∧ truthy connNoToken.token = false ∧
      get_queue dumpsStub loadsStub ⟨200, [], ""⟩ connNoToken "q1" [] =
        (.error .notAuthenticated, none)) := by
  refine ⟨⟨rfl, ?_⟩, ⟨rfl, rfl, ?_⟩⟩
  · exact ((C4_guard_ordering dumpsStub loadsStub ⟨201, [], ""⟩ connNoId
      "q1" 60 []).1 rfl).1
  · exact (((C4_guard_ordering dumpsStub loadsStub ⟨200, [], ""⟩ connNoToken
      "q1" 60 []).2 rfl rfl).2).1

/-- C7 counterexample: with an `https` endpoint and a supplied `cacert`, the
transport selector builds `HTTPSConnection(netloc)` with no certificate
configuration (the cacert is ignored); with an unsupported scheme (`ftp`) it
raises a `NameError` — the name `href` is unbound in `_http_connect` — and
not a `ClientException`-class error naming the scheme and href. -/
theorem C7_counterexample :
    connHttpsCa.cacert = some "cafile" ∧
    http_connect connHttpsCa = .ok (.secure "host" none) ∧
    http_connect connFtp = .error (.nameError "href") ∧
    isClientExceptionClass (.nameError "href") = false :=
  ⟨rfl, rfl, rfl, rfl⟩

/-- C7 amended: for a session endpoint with scheme `http` the selector
returns a plain connection bound to the endpoint's netloc; with scheme
`https` it returns an encrypted connection bound to the netloc with no
certificate configuration (the supplied `cacert` is never passed to the
connection); for any other scheme it raises a `NameError` (the source's
attempt to raise `ClientException('Cannot handle protocol ...')` evaluates
the unbound name `href` while formatting the message). -/
theorem C7_http_connect_schemes (c : Connection) (ep : String)
    (h : c.endpoint = some ep) :
    (urlparseScheme ep = "http" →
      http_connect c = .ok (.plain (urlparseNetloc ep))) ∧
    (urlparseScheme ep = "https" →
      http_connect c = .ok (.secure (urlparseNetloc ep) none)) ∧
    (urlparseScheme ep ≠ "http" → urlparseScheme ep ≠ "https" →
      http_connect c = .error (.nameError "href")) := by
  refine ⟨fun h1 => ?_, fun h1 => ?_, fun h1 h2 => ?_⟩
  · simp [http_connect, h, h1]
  · simp [http_connect, h, h1]
  · simp [http_connect, h, h1, h2]

/-- Witness for C7's amended theorem: the three schemes on concrete
endpoints. -/
theorem C7_http_connect_schemes_witness :
    (connAuthed.endpoint = some "http://host:80/v1" ∧
      http_connect connAuthed = .ok (.plain "host:80")) ∧
    (connHttpsCa.endpoint = some "https://host/v1" ∧
      http_connect connHttpsCa = .ok (.secure "host" none)) ∧
    (connFtp.endpoint = some "ftp://host/v1" ∧
      http_connect connFtp = .error (.nameError "href")) := by
  refine ⟨⟨rfl, ?_⟩, ⟨rfl, ?_⟩, ⟨rfl, ?_⟩⟩
  · exact (C7_http_connect_schemes connAuthed "http://host:80/v1" rfl).1
      (by decide)
  · exact (C7_http_connect_schemes connHttpsCa "https://host/v1" rfl).2.1
      (by decide)
  · exact (C7_http_connect_schemes connFtp "ftp://host/v1" rfl).2.2
      (by decide) (by decide)

/-- C9: on an authenticated session with a client id, `get_queue_metadata`
never expands a template, never issues a request, and never returns a body:
its first statement reads `self._queue_href`, an attribute nothing ever
assigns (the href attribute is `queue_href`), so it always raises
`AttributeError` with no request sent. -/
theorem C9_get_queue_metadata_broken (dumps : PyVal → String)
    (loads : String → PyVal) (resp : HttpResponse) (c : Connection)
    (qn : String) (headers : List (String × String))
    (h1 : clientidGuard c = true) (h2 : authGuard c = true) :
    get_queue_metadata dumps loads resp c qn headers =
      (.error (.attributeError "_queue_href"), none) := by
  simp [get_queue_metadata, h1, h2]

/-- Witness for C9: the authenticated `connAuthed` session. -/
theorem C9_get_queue_metadata_broken_witness :
    (clientidGuard connAuthed = true ∧ authGuard connAuthed = true) ∧
    get_queue_metadata dumpsStub loadsStub ⟨200, [], "{}"⟩ connAuthed "q1" []
      = (.error (.attributeError "_queue_href"), none) := by
  refine ⟨⟨rfl, rfl⟩, ?_⟩
  exact C9_get_queue_metadata_broken dumpsStub loadsStub ⟨200, [], "{}"⟩
    connAuthed "q1" [] rfl rfl

/-- A 404 response with a raw text body. -/
def resp404 : HttpResponse := ⟨404, [], "not found"⟩

/-- A 500 response with a raw text body. -/
def resp500 : HttpResponse := ⟨500, [], "server error"⟩

/-- C2 (as the code actually behaves): on an authenticated session with a
client id, when the request fails with status 404 both `get_queue` and
`delete_queue` raise `NameError` — evaluating the unbound name
`NoSuchQueueError` — rather than the not-found domain error carrying the
queue name; for every other non-2xx status the original `ClientException`
is re-raised unchanged. -/
theorem C2_404_translation (dumps : PyVal → String) (loads : String → PyVal)
    (resp : HttpResponse) (c : Connection) (qn : String)
    (headers : List (String × String)) (qh href : String)
    (h1 : clientidGuard c = true) (h2 : authGuard c = true)
    (h3 : c.queue_href = some qh)
    (h4 : procTemplate qh [("queue_name", qn)] = some href)
    (hconn : ∃ hc, http_connect c = .ok hc) :
    (resp.status = 404 →
      (get_queue dumps loads resp c qn headers).1 =
        .error (.nameError "NoSuchQueueError") ∧
      (delete_queue dumps loads resp c qn headers).1 =
        .error (.nameError "NoSuchQueueError") ∧
      ∀ q, (get_queue dumps loads resp c qn headers).1 ≠
        .error (.noSuchQueueError q))
    ∧ (resp.status / 100 ≠ 2 → resp.status ≠ 404 →
      (get_queue dumps loads resp c qn headers).1 =
        .error (.clientException href "GET" resp.status resp.body) ∧
      (delete_queue dumps loads resp c qn headers).1 =
        .error (.clientException href "DELETE" resp.status resp.body)) := by
  obtain ⟨hc, hcc⟩ := hconn
  constructor
  · intro hst
    refine ⟨?_, ?_, ?_⟩
    · simp [get_queue, h1, h2, h3, h4, perform_http, hcc, hst]
    · simp [delete_queue, h1, h2, h3, h4, perform_http, hcc, hst]
    · intro q
      simp [get_queue, h1, h2, h3, h4, perform_http, hcc, hst]
  · intro hst hne
    constructor
    · simp [get_queue, h1, h2, h3, h4, perform_http, hcc, hst, hne]
    · simp [delete_queue, h1, h2, h3, h4, perform_http, hcc, hst, hne]

/-- Witness for C2: `get_queue "missing"` on a 404 raises the `NameError`,
and `get_queue "x"` on a 500 re-raises the `ClientException` with status
500 and the raw body. -/
theorem C2_404_translation_witness :
    (clientidGuard connAuthed = true ∧ authGuard connAuthed = true ∧
      connAuthed.queue_href = some "http://host:80/v1/queues/{queue_name}" ∧
      procTemplate "http://host:80/v1/queues/{queue_name}"
        [("queue_name", "missing")] =
        some "http://host:80/v1/queues/missing" ∧
      (∃ hc, http_connect connAuthed = .ok hc) ∧
      resp404.status = 404 ∧ resp500.status / 100 ≠ 2 ∧
      resp500.status ≠ 404) ∧
    (get_queue dumpsStub loadsStub resp404 connAuthed "missing" []).1 =
      .error (.nameError "NoSuchQueueError") ∧
    (delete_queue dumpsStub loadsStub resp404 connAuthed "missing" []).1 =
      .error (.nameError "NoSuchQueueError") ∧
    (get_queue dumpsStub loadsStub resp500 connAuthed "x" []).1 =
      .error (.clientException "http://host:80/v1/queues/x" "GET" 500
        "server error") := by
  refine ⟨⟨rfl, rfl, rfl, rfl, ⟨.plain "host:80", rfl⟩, rfl, by decide,
    by decide⟩, ?_, ?_, ?_⟩
  · exact ((C2_404_translation dumpsStub loadsStub resp404 connAuthed
      "missing" [] "http://host:80/v1/queues/{queue_name}"
      "http://host:80/v1/queues/missing" rfl rfl rfl rfl
      ⟨.plain "host:80", rfl⟩).1 rfl).1
  · exact ((C2_404_translation dumpsStub loadsStub resp404 connAuthed
      "missing" [] "http://host:80/v1/queues/{queue_name}"
      "http://host:80/v1/queues/missing" rfl rfl rfl rfl
      ⟨.plain "host:80", rfl⟩).1 rfl).2.1
  · exact ((C2_404_translation dumpsStub loadsStub resp500 connAuthed
      "x" [] "http://host:80/v1/queues/{queue_name}"
      "http://host:80/v1/queues/x" rfl rfl rfl rfl
      ⟨.plain "host:80", rfl⟩).2 (by decide) (by decide)).1

/-- An authenticated session whose queue template has an empty base, so
expanded hrefs look like the spec's `/queues/q1` example. -/
def connAuthedRoot : Connection :=
  { auth_endpoint := "http://auth", user := "u", key := "k"
    token := some "tok", endpoint := some "http://host"
    client_id := some "cid"
    queues_href := some "/queues"
    queue_href := some "/queues/{queue_name}" }

/-- C6: on an authenticated session with a client id, `create_queue`
expands the single-queue template with the name, issues a `PUT` to the
expanded href with the serialized body `\x7bmessages: \x7bttl\x7d\x7d`, and
on any 2xx response (in particular a 201 with an empty body) returns a
Queue handle carrying that name, that href and that body as metadata. -/
theorem C6_create_queue_roundtrip (dumps : PyVal → String)
    (loads : String → PyVal) (resp : HttpResponse) (c : Connection)
    (e qn : String) (ttl : Int) (headers : List (String × String))
    (h1 : clientidGuard c = true) (h2 : authGuard c = true)
    (h3 : c.queue_href = some (e ++ "/queues/{queue_name}"))
    (he : ∀ ch ∈ e.data, ch ≠ '{')
    (hconn : ∃ hc, http_connect c = .ok hc)
    (hst : resp.status / 100 = 2) :
    create_queue dumps loads resp c qn ttl headers =
      (.ok ⟨.str (e ++ "/queues/" ++ qn), .str qn,
        PyVal.obj [("messages", PyVal.obj [("ttl", PyVal.int ttl)])]⟩,
       some ⟨"PUT", e ++ "/queues/" ++ qn,
         dumps (PyVal.obj [("messages", PyVal.obj [("ttl", PyVal.int ttl)])]),
         headers⟩) := by
  obtain ⟨hc, hcc⟩ := hconn
  have hpre : ∀ ch ∈ (e ++ "/queues/").data, ch ≠ '{' := by
    intro ch hch
    rw [String.data_append] at hch
    rcases List.mem_append.1 hch with h' | h'
    · exact he ch h'
    · have hlit : ∀ a ∈ "/queues/".data, a ≠ '{' := by decide
      exact hlit ch h'
  have hassoc : e ++ "/queues/{queue_name}" =
      (e ++ "/queues/") ++ "{queue_name}" := by
    rw [String.append_assoc]
    exact congrArg (fun s => e ++ s) (by decide)
  have hpt : procTemplate (e ++ "/queues/{queue_name}")
      [("queue_name", qn)] = some (e ++ "/queues/" ++ qn) := by
    rw [hassoc]
    exact procTemplate_expand (e ++ "/queues/") qn hpre
  simp [create_queue, h1, h2, h3, hpt, perform_http, hcc, hst]

/-- Witness for C6: `create_queue "q1" 60` against a mocked 201 with empty
body yields a handle with name `q1`, href `/queues/q1` and metadata
`\x7bmessages: \x7bttl: 60\x7d\x7d`. -/
theorem C6_create_queue_roundtrip_witness :
    (clientidGuard connAuthedRoot = true ∧ authGuard connAuthedRoot = true ∧
      connAuthedRoot.queue_href = some ("" ++ "/queues/{queue_name}") ∧
      (∀ ch ∈ ("" : String).data, ch ≠ '{') ∧
      (∃ hc, http_connect connAuthedRoot = .ok hc) ∧
      (201 : Nat) / 100 = 2) ∧
    create_queue dumpsStub loadsStub ⟨201, [], ""⟩ connAuthedRoot "q1" 60 [] =
      (.ok ⟨.str "/queues/q1", .str "q1",
        PyVal.obj [("messages", PyVal.obj [("ttl", PyVal.int 60)])]⟩,
       some ⟨"PUT", "/queues/q1",
         dumpsStub (PyVal.obj [("messages", PyVal.obj [("ttl", PyVal.int 60)])]),
         []⟩) := by
  refine ⟨⟨rfl, rfl, rfl, by decide, ⟨.plain "host", rfl⟩, by decide⟩, ?_⟩
  exact C6_create_queue_roundtrip dumpsStub loadsStub ⟨201, [], ""⟩
    connAuthedRoot "" "q1" 60 [] rfl rfl rfl (by decide)
    ⟨.plain "host", rfl⟩ (by decide)

/-- A well-shaped list-queues response element
`\x7bname, href, metadata\x7d` built from a `(name, href, metadata)`
triple. -/
def mkElem (t : String × String × PyVal) : PyVal :=
  PyVal.obj [("name", .str t.1), ("href", .str t.2.1), ("metadata", t.2.2)]

/-- The Queue handle `get_queues` builds from such an element. -/
def mkHandle (t : String × String × PyVal) : Queue :=
  ⟨.str t.2.1, .str t.1, t.2.2⟩

/-- `buildQueues` maps well-shaped elements to their handles, in order. -/
theorem buildQueues_canonical (l : List (String × String × PyVal)) :
    buildQueues (l.map mkElem) = .ok (l.map mkHandle) := by
  induction l with
  | nil => rfl
  | cons t l ih =>
    obtain ⟨n, h, m⟩ := t
    rw [List.map_cons, List.map_cons]
    have step : buildQueues (mkElem (n, h, m) :: List.map mkElem l) =
        Except.bind (buildQueues (List.map mkElem l))
          (fun tl => .ok (mkHandle (n, h, m) :: tl)) := rfl
    rw [step, ih]
    rfl

/-- C8: for every well-shaped list-queues response
`\x7bqueues: [e1, ..., en]\x7d`, `get_queues` on an authenticated session
with a client id produces exactly `n` Queue handles, one per element, in
the order the elements appear, each handle taking its `name`, `href` and
`metadata` from the corresponding element. -/
theorem C8_get_queues_listing (dumps : PyVal → String)
    (loads : String → PyVal) (resp : HttpResponse) (c : Connection)
    (headers : List (String × String)) (qhref : String)
    (elems : List (String × String × PyVal))
    (h1 : clientidGuard c = true) (h2 : authGuard c = true)
    (h3 : c.queues_href = some qhref)
    (hconn : ∃ hc, http_connect c = .ok hc)
    (hst : resp.status / 100 = 2) (hbody : resp.body.length > 0)
    (hres : loads resp.body =
      PyVal.obj [("queues", PyVal.arr (elems.map mkElem))]) :
    get_queues dumps loads resp c headers =
      (.ok (elems.map mkHandle), some ⟨"GET", qhref, "", headers⟩) := by
  obtain ⟨hc, hcc⟩ := hconn
  simp [get_queues, h1, h2, h3, perform_http, hcc, hst, hbody, hres,
    getItem, buildQueues_canonical]

/-- The spec's mocked two-queue listing, as the `loads` collaborator's
output for the mocked body. -/
def loadsTwoQueues : String → PyVal := fun _ =>
  PyVal.obj [("queues", PyVal.arr
    ([("a", "/queues/a", PyVal.obj []),
      ("b", "/queues/b", PyVal.obj [])].map mkElem))]

/-- Witness for C8: the mocked
`\x7bqueues: [\x7ba, /queues/a\x7d, \x7bb, /queues/b\x7d]\x7d` response
yields exactly the two handles in order. -/
theorem C8_get_queues_listing_witness :
    (clientidGuard connAuthed = true ∧ authGuard connAuthed = true ∧
      connAuthed.queues_href = some "http://host:80/v1/queues" ∧
      (∃ hc, http_connect connAuthed = .ok hc) ∧
      (200 : Nat) / 100 = 2 ∧ ("X" : String).length > 0 ∧
      loadsTwoQueues "X" =
        PyVal.obj [("queues", PyVal.arr
          ([("a", "/queues/a", PyVal.obj []),
            ("b", "/queues/b", PyVal.obj [])].map mkElem))]) ∧
    get_queues dumpsStub loadsTwoQueues ⟨200, [], "X"⟩ connAuthed [] =
      (.ok [⟨.str "/queues/a", .str "a", PyVal.obj []⟩,
            ⟨.str "/queues/b", .str "b", PyVal.obj []⟩],
       some ⟨"GET", "http://host:80/v1/queues", "", []⟩) := by
  refine ⟨⟨rfl, rfl, rfl, ⟨.plain "host:80", rfl⟩, by decide, by decide,
    rfl⟩, ?_⟩
  exact C8_get_queues_listing dumpsStub loadsTwoQueues ⟨200, [], "X"⟩
    connAuthed [] "http://host:80/v1/queues"
    [("a", "/queues/a", PyVal.obj []), ("b", "/queues/b", PyVal.obj [])]
    rfl rfl rfl ⟨.plain "host:80", rfl⟩ (by decide) (by decide) rfl

end Marconi
